import Mathlib

/-!
Verification development for the soniccanvas audio-reactive visual engine.

The embedding covers the audio-feature pipeline of `audio-engine.js`
(`detectBeat`, `extractFrequencyBands`, `getFrequencyData`) and the particle
pipeline of the `Visualizer` class (`update`, `updateParticles`,
`updateParticleColors`, `processGestureCommands`, `triggerPulse`,
`setVisualMode`, and the five mode update rules).

Modelling conventions:
- JavaScript numbers are modelled by `JQ`: either a finite exact rational
  (`JQ.num q`, idealizing IEEE doubles as exact rationals) or the single
  marker `JQ.nf` standing for a non-finite double (NaN or an infinity).
  Arithmetic on `JQ` propagates `nf` absorbingly, matching IEEE NaN
  propagation; division by zero yields `nf` (0/0 is NaN, x/0 is an
  infinity, both non-finite).  In every trace studied below, whenever a
  denominator is zero the numerator is zero as well (the denominator is a
  euclidean distance bounding each coordinate), so only NaN actually
  arises and the absorbing semantics is exact.
- Transcendental primitives (`Math.sin`, `Math.cos`, `Math.atan2`,
  `Math.sqrt`), the double value of `Math.PI`, and the `Math.random`
  stream are supplied through a `MathEnv` parameter; theorems assume only
  the facts about them that they use (e.g. `sqrt 0 = 0`).
- Scalar state mutated per frame is carried in explicit structures
  (`BeatState`, `VisState`); the per-frame methods become pure functions.
- Camera state (`updateCamera`, `updateCameraShake`) and the WebGL render
  call are outside the modelled fragment: they never read or write
  particle positions/velocities/colors/sizes.  The kaleidoscope
  post-processing `applyRadialSymmetry` is also omitted: with the fixed
  configuration (`particleCount = 2000`, `symmetrySegments = 6`) its write
  indices `(i + (2000/6)*segment)*3` are non-integral doubles, and a typed
  array silently drops writes at non-integral indices, so the method never
  changes any buffer entry.
- `Uint8Array` spectra are modelled as functions `ℕ → ℕ` whose values the
  theorems bound by 255 where relevant; `frequencyData.length` is passed
  explicitly as `binCount` (1024 for the 2048-point FFT).
- The mode string dispatched over in `update` is modelled by the closed
  enum `Mode`; `Mode.generic` stands for any string other than the five
  named modes (the `default:` branch, `updateParticles`).
-/

namespace SonicCanvas

/-- A JavaScript double: a finite value (idealized as an exact rational)
or the non-finite marker (NaN / ±Infinity). -/
inductive JQ where
  | num : ℚ → JQ
  | nf : JQ
deriving DecidableEq, Repr

namespace JQ

/-- Finite literal injection. -/
def jq (q : ℚ) : JQ := num q

def add : JQ → JQ → JQ
  | num a, num b => num (a + b)
  | _, _ => nf

def sub : JQ → JQ → JQ
  | num a, num b => num (a - b)
  | _, _ => nf

def mul : JQ → JQ → JQ
  | num a, num b => num (a * b)
  | _, _ => nf

/-- Division; a zero denominator produces a non-finite value
(`0/0` is NaN, `x/0` with `x ≠ 0` is an infinity). -/
def div : JQ → JQ → JQ
  | num a, num b => if b = 0 then nf else num (a / b)
  | _, _ => nf

/-- `Math.max` (NaN-propagating, as in JavaScript). -/
def jmax : JQ → JQ → JQ
  | num a, num b => num (max a b)
  | _, _ => nf

/-- `Math.min` (NaN-propagating, as in JavaScript). -/
def jmin : JQ → JQ → JQ
  | num a, num b => num (min a b)
  | _, _ => nf

/-- `Math.abs`. -/
def jabs : JQ → JQ
  | num a => num |a|
  | nf => nf

/-- The comparison `x > c` against a finite constant; false when `x` is
NaN (JavaScript comparison semantics; an infinity would compare true, but
the only non-finite value reachable in the modelled traces is NaN). -/
def gtq : JQ → ℚ → Bool
  | num a, c => decide (c < a)
  | nf, _ => false

/-- The comparison `x < c` against a finite constant; false when `x` is
non-finite (matching NaN). -/
def ltq : JQ → ℚ → Bool
  | num a, c => decide (a < c)
  | nf, _ => false

instance : Add JQ := ⟨add⟩
instance : Sub JQ := ⟨sub⟩
instance : Mul JQ := ⟨mul⟩
instance : Div JQ := ⟨div⟩

/-- Is the value finite? -/
def isFinite : JQ → Bool
  | num _ => true
  | nf => false

end JQ

open JQ (jq)

/-! ## Beat detector (`audio-engine.js`, `detectBeat`) -/

/-- `this.beatThreshold` (constructor). -/
def beatThreshold : ℚ := 13/10

/-- `this.beatDecayRate` (constructor). -/
def beatDecayRate : ℚ := 49/50

/-- `this.beatMinInterval` in milliseconds (constructor). -/
def beatMinInterval : ℤ := 200

/-- The mutable beat-detection state of `AudioEngine`:
`this.lastBeatTime` (a `Date.now()` timestamp) and `this.currentBeat`
(the decaying running level). -/
structure BeatState where
  lastBeatTime : ℤ
  currentBeat : ℚ
deriving DecidableEq, Repr

/-- Constructor values: `lastBeatTime = 0`, `currentBeat = 0`. -/
def initBeatState : BeatState := ⟨0, 0⟩

/-- `AudioEngine.detectBeat(currentAverage)`.  `now` is the `Date.now()`
value read at the top of the call.  The two nested `if`s of the source
(`now - lastBeatTime > beatMinInterval` and then
`currentAverage > currentBeat * beatThreshold`) fire exactly when their
conjunction holds; on firing, `lastBeatTime` and `currentBeat` are
snapped.  Afterwards, on every call, `currentBeat` is decayed by
`beatDecayRate` and floored at `currentAverage * 0.5`.
Returns `(beatDetected, new state)`. -/
def detectBeat (s : BeatState) (currentAverage : ℚ) (now : ℤ) : Bool × BeatState :=
  let fired : Bool :=
    decide (now - s.lastBeatTime > beatMinInterval) &&
    decide (currentAverage > s.currentBeat * beatThreshold)
  let s1 : BeatState :=
    if fired then { lastBeatTime := now, currentBeat := currentAverage } else s
  let decayed := s1.currentBeat * beatDecayRate
  let floored := max decayed (currentAverage * (1/2))
  (fired, { s1 with currentBeat := floored })

/-- The state of the beat detector after `n` calls with the constant
input `a`, the call of index `k` happening at time `t0 + k*Δ`
(a fixed tick interval `Δ`). -/
def beatRunState (a : ℚ) (Δ t0 : ℤ) : ℕ → BeatState
  | 0 => initBeatState
  | n + 1 => (detectBeat (beatRunState a Δ t0 n) a (t0 + (n : ℤ) * Δ)).2

/-- Whether the call of index `n` in the constant-input run reports a beat. -/
def beatRunFired (a : ℚ) (Δ t0 : ℤ) (n : ℕ) : Bool :=
  (detectBeat (beatRunState a Δ t0 n) a (t0 + (n : ℤ) * Δ)).1

/-! ## Frequency bands (`audio-engine.js`, `extractFrequencyBands`) -/

/-- `this.frequencyBands` (constructor): the six named bands with their
Hz ranges, in object order: sub, bass, low, mid, high, treble. -/
def frequencyBands : List (ℕ × ℕ) :=
  [(0, 60), (60, 250), (250, 500), (500, 2000), (2000, 4000), (4000, 8000)]

/-- `Math.floor((hz / nyquist) * bufferLength)` with
`nyquist = sampleRate / 2`, i.e. the exact floor of `2*hz*L/sr`. -/
def hzToBin (hz L sr : ℕ) : ℕ := (2 * hz * L) / sr

/-- The body of the per-band loop of `extractFrequencyBands`: sum the
magnitudes of bins `[startBin, endBin)`, divide by the bin count and
normalize by 255.  (When `endBin ≤ startBin` the source would divide an
empty sum by a non-positive count; the theorems below always establish
`startBin < endBin`.) -/
def extractBand (d : ℕ → ℕ) (sr L : ℕ) (startHz endHz : ℕ) : ℚ :=
  let startBin := hzToBin startHz L sr
  let endBin := hzToBin endHz L sr
  let sum : ℚ := ∑ i in Finset.Ico startBin endBin, (d i : ℚ)
  (sum / ((endBin : ℚ) - (startBin : ℚ))) / 255

/-- The six extracted band energies, as returned by
`extractFrequencyBands` (object with the six named fields). -/
structure Bands where
  sub : ℚ
  bass : ℚ
  low : ℚ
  mid : ℚ
  high : ℚ
  treble : ℚ
deriving DecidableEq, Repr

/-- `AudioEngine.extractFrequencyBands()`, for the spectrum `d`, sample
rate `sr` and buffer length `L`. -/
def extractFrequencyBands (d : ℕ → ℕ) (sr L : ℕ) : Bands :=
  { sub := extractBand d sr L 0 60
    bass := extractBand d sr L 60 250
    low := extractBand d sr L 250 500
    mid := extractBand d sr L 500 2000
    high := extractBand d sr L 2000 4000
    treble := extractBand d sr L 4000 8000 }

/-- The all-zero band record. -/
def zeroBands : Bands := ⟨0, 0, 0, 0, 0, 0⟩

/-! ## Feature extraction (`audio-engine.js`, `getFrequencyData`) -/

/-- The feature record returned by `getFrequencyData`. -/
structure AudioFeatures where
  frequencyData : ℕ → ℕ
  binCount : ℕ
  average : ℚ
  beat : Bool
  beatIntensity : ℚ
  bands : Bands

/-- The safe default returned when the analyser is not initialized:
a zero-filled `Uint8Array(1024)` and all-zero features. -/
def zeroFeatures : AudioFeatures :=
  { frequencyData := fun _ => 0
    binCount := 1024
    average := 0
    beat := false
    beatIntensity := 0
    bands := zeroBands }

/-- The relevant state of `AudioEngine`: `analyserData` is `some d` when
both `this.analyser` and `this.dataArray` are initialized and the byte
spectrum read by `getByteFrequencyData` is `d`; `none` otherwise.
`bufferLength` is 1024 (2048-point FFT). -/
structure AudioEngineState where
  analyserData : Option (ℕ → ℕ)
  sampleRate : ℕ
  beat : BeatState

/-- `AudioEngine.getFrequencyData()`.  On missing analyser data it
returns the zero features and leaves the state untouched; otherwise it
computes the raw average over the 1024 bins, runs `detectBeat` on the
raw average (mutating the beat state), extracts the bands, and returns
the normalized average and beat intensity. -/
def getFrequencyData (e : AudioEngineState) (now : ℤ) : AudioFeatures × AudioEngineState :=
  match e.analyserData with
  | none => (zeroFeatures, e)
  | some d =>
    let average : ℚ := (∑ i in Finset.range 1024, (d i : ℚ)) / 1024
    let r := detectBeat e.beat average now
    let bands := extractFrequencyBands d e.sampleRate 1024
    ({ frequencyData := d
       binCount := 1024
       average := average / 255
       beat := r.1
       beatIntensity := r.2.currentBeat / 255
       bands := bands },
     { e with beat := r.2 })

/-! ## Visualizer data model -/

/-- A color palette (`this.colorPalettes` entries). -/
structure Palette where
  hueBase : ℚ
  hueRange : ℚ
  saturation : ℚ
deriving DecidableEq, Repr

/-- `colorPalettes.cyberpunk`. -/
def cyberpunk : Palette := ⟨1/2, 3/10, 1⟩

/-- `colorPalettes.sunset`. -/
def sunset : Palette := ⟨1/20, 3/20, 9/10⟩

/-- `colorPalettes.ocean`. -/
def ocean : Palette := ⟨11/20, 3/20, 4/5⟩

/-- `colorPalettes[paletteNames[currentPalette]]`.  The gesture path only
produces indices 0..2; indices ≥ 2 map to `ocean` to keep the function
total. -/
def paletteOf : ℕ → Palette
  | 0 => cyberpunk
  | 1 => sunset
  | _ => ocean

/-- One particle: position (`particlePositions[i]`), velocity
(`particleVelocities[i]`), color (`particleColors[i]`, kept in the
hue/saturation/lightness coordinates passed to `setHSL`; the RGB
conversion done by the rendering library is a fixed function of these),
and size (`sizes[i]`). -/
structure Particle where
  px : JQ
  py : JQ
  pz : JQ
  vx : JQ
  vy : JQ
  vz : JQ
  hue : JQ
  sat : JQ
  light : JQ
  size : JQ
deriving DecidableEq, Repr

/-- A particle at the origin with zero velocity. -/
def originParticle : Particle :=
  ⟨jq 0, jq 0, jq 0, jq 0, jq 0, jq 0, jq 0, jq 0, jq 0, jq 1⟩

/-- The transcendental / non-deterministic primitives used by the
visualizer: `Math.sin`, `Math.cos`, `Math.atan2`, `Math.sqrt`, the
double value of `Math.PI`, and the `Math.random` stream (indexed by
draw). -/
structure MathEnv where
  sin : JQ → JQ
  cos : JQ → JQ
  atan2 : JQ → JQ → JQ
  sqrt : JQ → JQ
  piq : ℚ
  rand : ℕ → ℚ

/-- A concrete environment used to instantiate theorems: its `sqrt`
agrees with `Math.sqrt` at 0 (the only point where the theorems below
evaluate it) and every primitive returns a finite value on finite
input and propagates non-finite input. -/
def mathEnv0 : MathEnv :=
  { sin := fun x => match x with | .num _ => .num 0 | .nf => .nf
    cos := fun x => match x with | .num _ => .num 0 | .nf => .nf
    atan2 := fun y x => match y, x with | .num _, .num _ => .num 0 | _, _ => .nf
    sqrt := fun x => match x with | .num _ => .num 0 | .nf => .nf
    piq := 314159/100000
    rand := fun _ => 1/2 }

/-- `this.spiralTightness` (constructor constant). -/
def spiralTightness : ℚ := 1/10

/-- The visual mode enum (`this.visualMode` string); `generic` stands
for any string other than the five named ones (the `default:` branch of
the mode switch, `updateParticles`). -/
inductive Mode where
  | cosmic
  | neural
  | pulse
  | chaos
  | minimal
  | generic
deriving DecidableEq, Repr

/-- A gesture command snapshot (from the gesture controller). -/
structure GestureCommands where
  freeze : Bool
  pulse : Bool
  colorPalette : ℕ
deriving DecidableEq, Repr

/-- The per-frame audio input consumed by `Visualizer.update`
(the object returned by `getFrequencyData`). -/
structure AudioData where
  frequencyData : ℕ → ℕ
  binCount : ℕ
  average : ℚ
  beat : Bool
  beatIntensity : ℚ
  bands : Bands

/-- The mutable visualizer state touched by the modelled fragment. -/
structure VisState where
  particles : List Particle
  time : ℚ
  spiralAngle : ℚ
  bassIntensity : ℚ
  midIntensity : ℚ
  trebleIntensity : ℚ
  spikeIntensity : ℚ
  isFrozen : Bool
  pulseEffect : Bool
  pulseIntensity : ℚ
  currentPalette : ℕ
  visualMode : Mode
  isRunning : Bool
  particleConnections : List (ℕ × ℕ × JQ)
deriving DecidableEq, Repr

/-- Map over a list with the element index, starting at `k`
(the particle `for` loops, with `k = 0`). -/
def mapIdxFrom (f : ℕ → α → α) : ℕ → List α → List α
  | _, [] => []
  | k, a :: as => f k a :: mapIdxFrom f (k + 1) as

/-- Map over a list with the element index. -/
def mapIdxP (f : ℕ → α → α) (l : List α) : List α := mapIdxFrom f 0 l

/-- `Math.floor((i / particleCount) * frequencyData.length)`: the
fixed proportional particle-to-bin map used by the mode loops. -/
def freqIndexOf (i N L : ℕ) : ℕ := (i * L) / N

/-! ## Mode update rules (per-particle loop bodies) -/

/-- Loop body of `Visualizer.updateParticles` (the generic/default rule,
also the first phase of neural mode) for particle `i`.  Note that the
direction components divide by the raw distance, with no clamp. -/
def updateParticlesStep (env : MathEnv) (palette : Palette) (pulseEffect : Bool)
    (pulseIntensity bassIntensity : ℚ) (d : ℕ → ℕ) (L N : ℕ)
    (average : ℚ) (beat : Bool) (beatIntensity : ℚ) (i : ℕ) (p : Particle) : Particle :=
  let freqValue : JQ := jq ((d (freqIndexOf i N L) : ℚ) / 255)
  let distance := env.sqrt (p.px * p.px + p.py * p.py + p.pz * p.pz)
  let _normalizedDistance := distance / jq 150
  let force := freqValue * jq 5
  let directionX := p.px / distance
  let directionY := p.py / distance
  let directionZ := p.pz / distance
  let vx := p.vx + directionX * force * jq (1/10)
  let vy := p.vy + directionY * force * jq (1/10)
  let vz := p.vz + directionZ * force * jq (1/10)
  let pulseStrength : JQ := if pulseEffect then jq pulseIntensity else jq beatIntensity
  let vx := if beat || pulseEffect then vx + directionX * pulseStrength * jq (1/2) else vx
  let vy := if beat || pulseEffect then vy + directionY * pulseStrength * jq (1/2) else vy
  let vz := if beat || pulseEffect then vz + directionZ * pulseStrength * jq (1/2) else vz
  let px := p.px + vx
  let py := p.py + vy
  let pz := p.pz + vz
  let vx := vx * jq (19/20)
  let vy := vy * jq (19/20)
  let vz := vz * jq (19/20)
  let targetDistance := jq 100 + jq bassIntensity * jq 50
  let restoreForce := (targetDistance - distance) * jq (1/100)
  let px := px + directionX * restoreForce
  let py := py + directionY * restoreForce
  let pz := pz + directionZ * restoreForce
  let hue := jq palette.hueBase + freqValue * jq palette.hueRange - jq average * jq (1/5)
  let sat := jq palette.saturation + freqValue * jq (1/10)
  let light := jq (2/5) + freqValue * jq (2/5)
  let pulseSize := if pulseEffect then jq pulseIntensity * jq 2 else jq 0
  let size := jq 1 + freqValue * jq 3 + (if beat then jq beatIntensity else jq 0) + pulseSize
  { px := px, py := py, pz := pz, vx := vx, vy := vy, vz := vz
    hue := hue, sat := sat, light := light, size := size }

/-- Loop body of `Visualizer.updateParticleColors` (the frozen path):
recomputes color and size only, leaving position and velocity alone. -/
def updateParticleColorsStep (palette : Palette) (pulseEffect : Bool)
    (pulseIntensity : ℚ) (d : ℕ → ℕ) (L N : ℕ) (average : ℚ)
    (i : ℕ) (p : Particle) : Particle :=
  let freqValue : JQ := jq ((d (freqIndexOf i N L) : ℚ) / 255)
  let hue := jq palette.hueBase + freqValue * jq palette.hueRange - jq average * jq (1/5)
  let sat := jq palette.saturation + freqValue * jq (1/10)
  let light := jq (2/5) + freqValue * jq (2/5)
  let pulseSize := if pulseEffect then jq pulseIntensity * jq 2 else jq 0
  let size := jq 1 + freqValue * jq 3 + pulseSize
  { p with hue := hue, sat := sat, light := light, size := size }

/-- Loop body of `Visualizer.updateParticlesCosmic` for particle `i`.
The beat-pulse direction clamps the denominator with
`Math.max(distance, 1)`. -/
def updateParticlesCosmicStep (env : MathEnv) (palette : Palette) (pulseEffect : Bool)
    (pulseIntensity bassIntensity spiralAngle : ℚ) (d : ℕ → ℕ) (L N : ℕ)
    (beat : Bool) (beatIntensity : ℚ) (i : ℕ) (p : Particle) : Particle :=
  let freqValue : JQ := jq ((d (freqIndexOf i N L) : ℚ) / 255)
  let distance := env.sqrt (p.px * p.px + p.pz * p.pz)
  let angle := env.atan2 p.pz p.px + jq (spiralAngle * spiralTightness)
  let targetRadius := jq 100 + jq bassIntensity * jq 80 + freqValue * jq 50
  let targetX := env.cos angle * targetRadius
  let targetZ := env.sin angle * targetRadius
  let vx := p.vx + (targetX - p.px) * jq (1/100)
  let vz := p.vz + (targetZ - p.pz) * jq (1/100)
  let vy := p.vy + (freqValue * jq 50 - p.py) * jq (1/100)
  let pulseStrength : JQ := if pulseEffect then jq pulseIntensity else jq beatIntensity
  let directionX := p.px / JQ.jmax distance (jq 1)
  let directionZ := p.pz / JQ.jmax distance (jq 1)
  let vx := if beat || pulseEffect then vx + directionX * pulseStrength * jq (1/2) else vx
  let vz := if beat || pulseEffect then vz + directionZ * pulseStrength * jq (1/2) else vz
  let px := p.px + vx
  let py := p.py + vy
  let pz := p.pz + vz
  let vx := vx * jq (23/25)
  let vy := vy * jq (23/25)
  let vz := vz * jq (23/25)
  let normalizedDist := JQ.jmin (distance / jq 200) (jq 1)
  let hue := jq palette.hueBase + normalizedDist * jq palette.hueRange
  let light := jq (1/2) + freqValue * jq (1/2)
  let size := jq 1 + freqValue * jq 4 + (if beat then jq beatIntensity else jq 0)
  { px := px, py := py, pz := pz, vx := vx, vy := vy, vz := vz
    hue := hue, sat := jq palette.saturation, light := light, size := size }

/-- Loop body of `Visualizer.updateParticlesPulse` for particle `i`.
All direction components clamp the denominator with
`Math.max(distance, 1)`. -/
def updateParticlesPulseStep (env : MathEnv) (palette : Palette)
    (bassIntensity time : ℚ) (d : ℕ → ℕ) (L N : ℕ)
    (beat : Bool) (beatIntensity : ℚ) (i : ℕ) (p : Particle) : Particle :=
  let freqValue : JQ := jq ((d (freqIndexOf i N L) : ℚ) / 255)
  let distance := env.sqrt (p.px * p.px + p.py * p.py + p.pz * p.pz)
  let directionX := p.px / JQ.jmax distance (jq 1)
  let directionY := p.py / JQ.jmax distance (jq 1)
  let directionZ := p.pz / JQ.jmax distance (jq 1)
  let pulsePhase := env.sin (jq (time * 2) + jq ((i : ℚ) / (N : ℚ)) * jq env.piq * jq 4)
  let targetDistance := jq 80 + pulsePhase * jq 40 + freqValue * jq 60 + jq bassIntensity * jq 40
  let force := (targetDistance - distance) * jq (1/20)
  let vx := p.vx + directionX * force
  let vy := p.vy + directionY * force
  let vz := p.vz + directionZ * force
  let vx := if beat then vx + directionX * jq beatIntensity * jq 2 else vx
  let vy := if beat then vy + directionY * jq beatIntensity * jq 2 else vy
  let vz := if beat then vz + directionZ * jq beatIntensity * jq 2 else vz
  let px := p.px + vx
  let py := p.py + vy
  let pz := p.pz + vz
  let vx := vx * jq (22/25)
  let vy := vy * jq (22/25)
  let vz := vz * jq (22/25)
  let hue := jq palette.hueBase + (pulsePhase * jq (1/2) + jq (1/2)) * jq palette.hueRange
  let light := jq (2/5) + freqValue * jq (3/5)
  let size := jq 2 + freqValue * jq 5 + JQ.jabs pulsePhase * jq 2
  { px := px, py := py, pz := pz, vx := vx, vy := vy, vz := vz
    hue := hue, sat := jq palette.saturation, light := light, size := size }

/-- Loop body of `Visualizer.updateParticlesChaos` for particle `i`.
The beat jitter draws `Math.random()` three times (draws `3i`, `3i+1`,
`3i+2` of the stream); the containment force divides by the distance
only when `distance > 200`. -/
def updateParticlesChaosStep (env : MathEnv) (palette : Palette)
    (time : ℚ) (d : ℕ → ℕ) (L N : ℕ)
    (beat : Bool) (beatIntensity : ℚ) (i : ℕ) (p : Particle) : Particle :=
  let freqValue : JQ := jq ((d (freqIndexOf i N L) : ℚ) / 255)
  let chaosX := env.sin (jq (time * 3 + (i : ℚ) * (1/10))) * freqValue * jq 5
  let chaosY := env.cos (jq (time * 4 + (i : ℚ) * (3/20))) * freqValue * jq 5
  let chaosZ := env.sin (jq (time * (5/2) + (i : ℚ) * (3/25))) * freqValue * jq 5
  let vx := p.vx + chaosX * jq (1/10)
  let vy := p.vy + chaosY * jq (1/10)
  let vz := p.vz + chaosZ * jq (1/10)
  let vx := if beat then vx + jq (env.rand (3 * i) - 1/2) * jq beatIntensity * jq 3 else vx
  let vy := if beat then vy + jq (env.rand (3 * i + 1) - 1/2) * jq beatIntensity * jq 3 else vy
  let vz := if beat then vz + jq (env.rand (3 * i + 2) - 1/2) * jq beatIntensity * jq 3 else vz
  let distance := env.sqrt (p.px * p.px + p.py * p.py + p.pz * p.pz)
  let vx := if distance.gtq 200 then vx + ((jq 0 - p.px) / distance) * jq (1/2) else vx
  let vy := if distance.gtq 200 then vy + ((jq 0 - p.py) / distance) * jq (1/2) else vy
  let vz := if distance.gtq 200 then vz + ((jq 0 - p.pz) / distance) * jq (1/2) else vz
  let px := p.px + vx
  let py := p.py + vy
  let pz := p.pz + vz
  let vx := vx * jq (24/25)
  let vy := vy * jq (24/25)
  let vz := vz * jq (24/25)
  let hue := jq palette.hueBase + env.sin (jq (time * 5 + (i : ℚ) * (1/10))) * jq palette.hueRange
  let light := jq (3/10) + freqValue * jq (7/10)
  let size := jq 1 + freqValue * jq 6
  { px := px, py := py, pz := pz, vx := vx, vy := vy, vz := vz
    hue := hue, sat := jq palette.saturation, light := light, size := size }

/-- `Visualizer.updateParticlesMinimal`, expressed per particle.  The
source iterates `bar` over 0..63 and `p` over 0..particlesPerBar-1 with
`i = bar * particlesPerBar + p` (so `bar = i / particlesPerBar`,
`p = i % particlesPerBar`); particles with `i ≥ 64 * particlesPerBar`
are never visited.  The per-bar frequency bin is
`Math.floor((bar / 64) * frequencyData.length)`.  Velocity is not
touched by this mode. -/
def updateParticlesMinimalStep (palette : Palette) (d : ℕ → ℕ) (L N : ℕ)
    (i : ℕ) (p : Particle) : Particle :=
  let barCount := 64
  let particlesPerBar := N / barCount
  if particlesPerBar = 0 ∨ 64 * particlesPerBar ≤ i then p
  else
    let bar := i / particlesPerBar
    let pIdx := i % particlesPerBar
    let freqValue : JQ := jq ((d ((bar * L) / 64) : ℚ) / 255)
    let barHeight := freqValue * jq 150
    let x := jq (((bar : ℚ) - 32) * 8)
    let y := jq ((pIdx : ℚ) / (particlesPerBar : ℚ)) * barHeight - jq 50
    let z := jq 0
    let px := p.px + (x - p.px) * jq (3/20)
    let py := p.py + (y - p.py) * jq (3/20)
    let pz := p.pz + (z - p.pz) * jq (3/20)
    let hue := jq palette.hueBase + (y / jq 100 + jq (1/2)) * jq palette.hueRange
    let light := jq (1/2) + freqValue * jq (1/2)
    let size := jq 3 + freqValue * jq 4
    { p with px := px, py := py, pz := pz
             hue := hue, sat := jq palette.saturation, light := light, size := size }

/-! ## Mode update rules (whole-field functions) -/

/-- `Visualizer.updateParticles` applied to the whole field. -/
def updateParticlesGeneric (env : MathEnv) (a : AudioData) (s : VisState) : VisState :=
  { s with particles :=
      mapIdxP (updateParticlesStep env (paletteOf s.currentPalette) s.pulseEffect
        s.pulseIntensity s.bassIntensity a.frequencyData a.binCount s.particles.length
        a.average a.beat a.beatIntensity) s.particles }

/-- `Visualizer.updateParticleColors` applied to the whole field. -/
def updateParticleColors (a : AudioData) (s : VisState) : VisState :=
  { s with particles :=
      mapIdxP (updateParticleColorsStep (paletteOf s.currentPalette) s.pulseEffect
        s.pulseIntensity a.frequencyData a.binCount s.particles.length
        a.average) s.particles }

/-- `Visualizer.updateParticlesCosmic` applied to the whole field. -/
def updateParticlesCosmic (env : MathEnv) (a : AudioData) (s : VisState) : VisState :=
  { s with particles :=
      mapIdxP (updateParticlesCosmicStep env (paletteOf s.currentPalette) s.pulseEffect
        s.pulseIntensity s.bassIntensity s.spiralAngle a.frequencyData a.binCount
        s.particles.length a.beat a.beatIntensity) s.particles }

/-- `Visualizer.updateParticlesPulse` applied to the whole field. -/
def updateParticlesPulse (env : MathEnv) (a : AudioData) (s : VisState) : VisState :=
  { s with particles :=
      mapIdxP (updateParticlesPulseStep env (paletteOf s.currentPalette) s.bassIntensity
        s.time a.frequencyData a.binCount s.particles.length a.beat
        a.beatIntensity) s.particles }

/-- `Visualizer.updateParticlesChaos` applied to the whole field. -/
def updateParticlesChaos (env : MathEnv) (a : AudioData) (s : VisState) : VisState :=
  { s with particles :=
      mapIdxP (updateParticlesChaosStep env (paletteOf s.currentPalette) s.time
        a.frequencyData a.binCount s.particles.length a.beat a.beatIntensity) s.particles }

/-- `Visualizer.updateParticlesMinimal` applied to the whole field. -/
def updateParticlesMinimal (a : AudioData) (s : VisState) : VisState :=
  { s with particles :=
      mapIdxP (updateParticlesMinimalStep (paletteOf s.currentPalette) a.frequencyData
        a.binCount s.particles.length) s.particles }

/-- The indices `0, 5, 10, …` below `m`
(the stride-5 loops of the neural connection pass). -/
def stride5Below (m : ℕ) : List ℕ := (List.range m).filter (fun k => k % 5 = 0)

/-- Fallback particle for out-of-range reads (never hit by the loops,
whose indices stay below the particle count). -/
def defaultParticle : Particle :=
  ⟨jq 0, jq 0, jq 0, jq 0, jq 0, jq 0, jq 0, jq 0, jq 0, jq 1⟩

/-- The connection pass of `Visualizer.updateParticlesNeural`: for
`i`, `j` striding by 5 below `min(particleCount, 200)` with `j ≥ i + 5`,
an edge is created when the distance is below
`60 + midIntensity * 30`, with opacity `(1 - distance/threshold) * 0.5`. -/
def neuralConnections (env : MathEnv) (midIntensity : ℚ) (ps : List Particle) :
    List (ℕ × ℕ × JQ) :=
  let m := min ps.length 200
  let thr : ℚ := 60 + midIntensity * 30
  (stride5Below m).flatMap (fun i =>
    ((stride5Below m).filter (fun j => i + 5 ≤ j)).filterMap (fun j =>
      let pi := ps.getD i defaultParticle
      let pj := ps.getD j defaultParticle
      let dx := pi.px - pj.px
      let dy := pi.py - pj.py
      let dz := pi.pz - pj.pz
      let dist := env.sqrt (dx * dx + dy * dy + dz * dz)
      if dist.ltq thr then some (i, j, (jq 1 - dist / jq thr) * jq (1/2)) else none))

/-- `Visualizer.updateParticlesNeural`: first the generic position
update, then the connection rebuild. -/
def updateParticlesNeural (env : MathEnv) (a : AudioData) (s : VisState) : VisState :=
  let s1 := updateParticlesGeneric env a s
  { s1 with particleConnections := neuralConnections env s1.midIntensity s1.particles }

/-! ## Gesture commands, pulse, mode switch, tick -/

/-- One step of the `decayPulse` closure inside `triggerPulse`:
multiply `pulseIntensity` by 0.85; if still above 0.1, keep going,
otherwise clear the pulse state (intensity exactly 0). -/
def pulseDecayStep (s : VisState) : VisState :=
  let p := s.pulseIntensity * (17/20)
  if p > 1/10 then { s with pulseIntensity := p }
  else { s with pulseEffect := false, pulseIntensity := 0 }

/-- `Visualizer.triggerPulse(intensity)`: sets `pulseEffect`, sets
`pulseIntensity = intensity + 1.5`, and runs the first `decayPulse`
step synchronously; subsequent steps run once per animation frame
(`pulseDecayStep` iterated). -/
def triggerPulse (intensity : ℚ) (s : VisState) : VisState :=
  pulseDecayStep { s with pulseEffect := true, pulseIntensity := intensity + 3/2 }

/-- `Visualizer.processGestureCommands(commands, beat, beatIntensity)`:
freeze is a level assignment; pulse triggers only when no pulse is
active; the palette index is assigned when it differs. -/
def processGestureCommands (c : GestureCommands) (beat : Bool) (beatIntensity : ℚ)
    (s : VisState) : VisState :=
  let s1 := { s with isFrozen := c.freeze }
  let s2 := if c.pulse && !s1.pulseEffect then triggerPulse beatIntensity s1 else s1
  if decide (c.colorPalette ≠ s2.currentPalette) then
    { s2 with currentPalette := c.colorPalette }
  else s2

/-- `Visualizer.setVisualMode(mode)`. -/
def setVisualMode (m : Mode) (s : VisState) : VisState := { s with visualMode := m }

/-- The mode-dispatch block of `Visualizer.update`: when not frozen,
run the rule selected by `visualMode` (the `default:` branch is
`updateParticles`); when frozen, only `updateParticleColors`. -/
def runActiveMode (env : MathEnv) (a : AudioData) (s : VisState) : VisState :=
  if s.isFrozen = false then
    match s.visualMode with
    | .cosmic => updateParticlesCosmic env a s
    | .neural => updateParticlesNeural env a s
    | .pulse => updateParticlesPulse env a s
    | .chaos => updateParticlesChaos env a s
    | .minimal => updateParticlesMinimal a s
    | .generic => updateParticlesGeneric env a s
  else updateParticleColors a s

/-- The prefix of `Visualizer.update` that runs before the mode
dispatch, in source order: advance `time`, set the three intensity
scalars from the bands, process the gesture commands when present, set
`spikeIntensity`, advance `spiralAngle`. -/
def preDispatch (a : AudioData) (g : Option GestureCommands) (s : VisState) : VisState :=
  let s := { s with time := s.time + 1/100 }
  let s := { s with
    bassIntensity := a.bands.bass * 2
    midIntensity := a.bands.mid * (3/2)
    trebleIntensity := a.bands.treble * (6/5) }
  let s := match g with
    | some c => processGestureCommands c a.beat a.beatIntensity s
    | none => s
  let s := { s with spikeIntensity := a.bands.treble * 3 }
  { s with spiralAngle := s.spiralAngle + 1/100 + a.bands.bass * (1/20) }

/-- `Visualizer.update(audioData, gestureCommands)`: one render tick of
the modelled fragment.  Camera shake/orbit, the radial-symmetry
post-processing (a no-op on the buffers, see the header) and the render
call are outside the model; everything else follows the source order:
the pre-dispatch prefix, then the mode-dispatch block. -/
def update (env : MathEnv) (a : AudioData) (g : Option GestureCommands)
    (s : VisState) : VisState :=
  if s.isRunning = false then s else
  runActiveMode env a (preDispatch a g s)

/-- The operations a user/gesture session can apply to a constructed
visualizer: mode switches, gesture snapshots (freeze toggles, pulse
triggers, palette changes), direct pulse triggers, pulse decay frames,
and render ticks. -/
inductive VisOp where
  | setMode (m : Mode)
  | gesture (c : GestureCommands) (beat : Bool) (beatIntensity : ℚ)
  | pulseTrigger (intensity : ℚ)
  | pulseDecayFrame
  | tick (a : AudioData) (g : Option GestureCommands)

/-- Apply one operation. -/
def applyOp (env : MathEnv) (s : VisState) : VisOp → VisState
  | .setMode m => setVisualMode m s
  | .gesture c beat bi => processGestureCommands c beat bi s
  | .pulseTrigger i => triggerPulse i s
  | .pulseDecayFrame => pulseDecayStep s
  | .tick a g => update env a g s

/-- Apply a sequence of operations, oldest first. -/
def applyOps (env : MathEnv) (ops : List VisOp) (s : VisState) : VisState :=
  ops.foldl (applyOp env) s

/-- A concrete base state used by witnesses and counterexamples. -/
def stateA : VisState :=
  { particles := [defaultParticle]
    time := 0
    spiralAngle := 0
    bassIntensity := 0
    midIntensity := 0
    trebleIntensity := 0
    spikeIntensity := 0
    isFrozen := false
    pulseEffect := false
    pulseIntensity := 0
    currentPalette := 0
    visualMode := .cosmic
    isRunning := true
    particleConnections := [] }

/-- A concrete silent audio frame used by witnesses. -/
def audioA : AudioData :=
  { frequencyData := fun _ => 0
    binCount := 1024
    average := 0
    beat := false
    beatIntensity := 0
    bands := zeroBands }

/-- A concrete engine state with no analyser (used by witnesses). -/
def engineA : AudioEngineState :=
  { analyserData := none, sampleRate := 44100, beat := initBeatState }

/-- The band record of an all-255 spectrum (every energy exactly 1). -/
def onesBands : Bands := ⟨1, 1, 1, 1, 1, 1⟩

/-- The position components of a particle. -/
def particlePos (p : Particle) : JQ × JQ × JQ := (p.px, p.py, p.pz)

/-- The velocity components of a particle. -/
def particleVel (p : Particle) : JQ × JQ × JQ := (p.vx, p.vy, p.vz)

/-- The visualizer state right after `triggerPulse` assigns
`pulseEffect = true` and `pulseIntensity = p0`, before the first
`decayPulse` step runs. -/
def pulseSetState (p0 : ℚ) (s : VisState) : VisState :=
  { s with pulseEffect := true, pulseIntensity := p0 }

/-- The cleared pulse state (`pulseEffect = false`,
`pulseIntensity` exactly 0). -/
def pulseClearedState (s : VisState) : VisState :=
  { s with pulseEffect := false, pulseIntensity := 0 }

/-! # Theorems -/

/-! ## Arithmetic of `JQ` -/

namespace JQ

@[simp] theorem num_add_num (a b : ℚ) : num a + num b = num (a + b) := rfl

@[simp] theorem add_nf (x : JQ) : x + nf = nf := by cases x <;> rfl

@[simp] theorem nf_add (x : JQ) : nf + x = nf := by cases x <;> rfl

@[simp] theorem num_sub_num (a b : ℚ) : num a - num b = num (a - b) := rfl

@[simp] theorem sub_nf (x : JQ) : x - nf = nf := by cases x <;> rfl

@[simp] theorem nf_sub (x : JQ) : nf - x = nf := by cases x <;> rfl

@[simp] theorem num_mul_num (a b : ℚ) : num a * num b = num (a * b) := rfl

@[simp] theorem mul_nf (x : JQ) : x * nf = nf := by cases x <;> rfl

@[simp] theorem nf_mul (x : JQ) : nf * x = nf := by cases x <;> rfl

@[simp] theorem num_div_num (a b : ℚ) :
    num a / num b = if b = 0 then nf else num (a / b) := rfl

@[simp] theorem div_nf (x : JQ) : x / nf = nf := by cases x <;> rfl

@[simp] theorem nf_div (x : JQ) : nf / x = nf := by cases x <;> rfl

@[simp] theorem jmax_num_num (a b : ℚ) : jmax (num a) (num b) = num (max a b) := rfl

@[simp] theorem jmin_num_num (a b : ℚ) : jmin (num a) (num b) = num (min a b) := rfl

@[simp] theorem jq_eq_num (q : ℚ) : jq q = num q := rfl

end JQ

/-! ## List helper lemmas -/

theorem length_mapIdxFrom (f : ℕ → α → α) :
    ∀ (k : ℕ) (l : List α), (mapIdxFrom f k l).length = l.length
  | _, [] => rfl
  | k, _ :: as => by simp [mapIdxFrom, length_mapIdxFrom f (k + 1) as]

theorem length_mapIdxP (f : ℕ → α → α) (l : List α) :
    (mapIdxP f l).length = l.length := length_mapIdxFrom f 0 l

theorem get?_mapIdxFrom (f : ℕ → α → α) :
    ∀ (k : ℕ) (l : List α) (i : ℕ),
      (mapIdxFrom f k l).get? i = (l.get? i).map (f (k + i))
  | _, [], i => by simp [mapIdxFrom]
  | k, a :: as, 0 => by simp [mapIdxFrom]
  | k, a :: as, i + 1 => by
      have h := get?_mapIdxFrom f (k + 1) as i
      have e : k + 1 + i = k + (i + 1) := by omega
      simp only [mapIdxFrom, List.get?_cons_succ, h, e]

theorem get?_mapIdxP (f : ℕ → α → α) (l : List α) (i : ℕ) :
    (mapIdxP f l).get? i = (l.get? i).map (f i) := by
  simpa using get?_mapIdxFrom f 0 l i

theorem map_mapIdxFrom (g : α → β) (f : ℕ → α → α)
    (h : ∀ i x, g (f i x) = g x) :
    ∀ (k : ℕ) (l : List α), (mapIdxFrom f k l).map g = l.map g
  | _, [] => rfl
  | k, a :: as => by
      simp [mapIdxFrom, h k a, map_mapIdxFrom g f h (k + 1) as]

theorem map_mapIdxP (g : α → β) (f : ℕ → α → α)
    (h : ∀ i x, g (f i x) = g x) (l : List α) :
    (mapIdxP f l).map g = l.map g := map_mapIdxFrom g f h 0 l

/-! ## Beat-detector helper lemmas -/

theorem detectBeat_fired_iff (s : BeatState) (a : ℚ) (now : ℤ) :
    (detectBeat s a now).1 = true ↔
      (beatMinInterval < now - s.lastBeatTime ∧ s.currentBeat * beatThreshold < a) := by
  simp [detectBeat]

theorem detectBeat_state (s : BeatState) (a : ℚ) (now : ℤ) :
    (detectBeat s a now).2.lastBeatTime =
      (if (detectBeat s a now).1 then now else s.lastBeatTime) ∧
    (detectBeat s a now).2.currentBeat =
      max ((if (detectBeat s a now).1 then a else s.currentBeat) * beatDecayRate)
        (a * (1/2)) := by
  by_cases h1 : beatMinInterval < now - s.lastBeatTime <;>
    by_cases h2 : s.currentBeat * beatThreshold < a <;>
    simp [detectBeat, h1, h2]

/-! ## Claim C1 -/

/-- Claim C1 (code bug): in the generic fallback update rule
`updateParticles` (which neural mode also runs), a particle exactly at
the origin does NOT stay finite after one tick: the direction components
divide `pos.x` by the unclamped distance 0, so the velocity and the
integrated position become non-finite (NaN), for any environment whose
square root maps 0 to 0.  This contradicts the claimed clamping of every
distance denominator to a minimum of 1 (the clamp is present in the
cosmic and pulse rules but missing in `updateParticles`). -/
theorem c1_origin_nan (env : MathEnv) (h : env.sqrt (JQ.num 0) = JQ.num 0) :
    (updateParticlesStep env cyberpunk false 0 0 (fun _ => 0) 1024 2000 0 false 0 0
      originParticle).vx = JQ.nf ∧
    (updateParticlesStep env cyberpunk false 0 0 (fun _ => 0) 1024 2000 0 false 0 0
      originParticle).px = JQ.nf := by
  constructor <;> simp [updateParticlesStep, originParticle, h]

/-- Witness for C1: the hypothesis is satisfied by the concrete
environment `mathEnv0`, whose `sqrt` sends 0 to 0 exactly as
`Math.sqrt` does. -/
theorem c1_origin_nan_witness :
    mathEnv0.sqrt (JQ.num 0) = JQ.num 0 ∧
    ((updateParticlesStep mathEnv0 cyberpunk false 0 0 (fun _ => 0) 1024 2000 0 false 0 0
      originParticle).vx = JQ.nf ∧
     (updateParticlesStep mathEnv0 cyberpunk false 0 0 (fun _ => 0) 1024 2000 0 false 0 0
      originParticle).px = JQ.nf) :=
  ⟨rfl, c1_origin_nan mathEnv0 rfl⟩

/-! ## Claim C2 -/

/-- Claim C2 counterexample: when exactly `beatMinInterval` (200 ms)
has elapsed since the last beat — "at least 200 ms" in the claim's
phrasing — and the average exceeds the adaptive threshold, the code
does NOT report a beat, because the source tests the strict inequality
`now - lastBeatTime > 200`.  Concretely, from the initial state
(`lastBeatTime = 0`) a call at `now = 200` with average 1 satisfies the
claim's firing conditions yet returns `false`. -/
theorem c2_counterexample :
    (detectBeat initBeatState 1 200).1 = false ∧
    beatMinInterval ≤ (200 : ℤ) - initBeatState.lastBeatTime ∧
    initBeatState.currentBeat * beatThreshold < 1 := by
  refine ⟨?_, by norm_num [initBeatState, beatMinInterval],
    by norm_num [initBeatState, beatThreshold]⟩
  have h := detectBeat_fired_iff initBeatState 1 200
  norm_num [initBeatState, beatMinInterval, beatThreshold] at h ⊢
  exact h

/-- Claim C2 (amended): a beat is reported iff STRICTLY more than
`beatMinInterval` (200 ms) has elapsed since the last detected beat and
the current average strictly exceeds `runningLevel * beatThreshold`;
when a beat fires, the last-beat timestamp is set to `now` and the
running level is snapped to the current average; and on every call the
(possibly snapped) running level is afterwards multiplied by
`beatDecayRate` (0.98) and floored at `currentAverage * 0.5`. -/
theorem c2_beat_step (s : BeatState) (a : ℚ) (now : ℤ) :
    ((detectBeat s a now).1 = true ↔
      (beatMinInterval < now - s.lastBeatTime ∧ s.currentBeat * beatThreshold < a)) ∧
    (detectBeat s a now).2.lastBeatTime =
      (if (detectBeat s a now).1 then now else s.lastBeatTime) ∧
    (detectBeat s a now).2.currentBeat =
      max ((if (detectBeat s a now).1 then a else s.currentBeat) * beatDecayRate)
        (a * (1/2)) :=
  ⟨detectBeat_fired_iff s a now, detectBeat_state s a now⟩

/-! ## Claim C9 -/

/-- Claim C9: when the analyser or its data array is missing,
`getFrequencyData` returns the all-zero feature record (all six band
energies 0, average 0, beat intensity 0, `beat = false`, zero-filled
spectrum) and leaves the engine state untouched; being a total
function, it raises no error. -/
theorem c9_missing_data (e : AudioEngineState) (now : ℤ)
    (h : e.analyserData = none) :
    getFrequencyData e now = (zeroFeatures, e) ∧
    zeroFeatures.bands = zeroBands ∧
    zeroFeatures.average = 0 ∧
    zeroFeatures.beat = false ∧
    zeroFeatures.beatIntensity = 0 ∧
    zeroFeatures.frequencyData = fun _ => 0 := by
  refine ⟨?_, rfl, rfl, rfl, rfl, rfl⟩
  unfold getFrequencyData
  rw [h]

/-- Witness for C9 at the concrete uninitialized engine `engineA`. -/
theorem c9_missing_data_witness :
    engineA.analyserData = none ∧
    (getFrequencyData engineA 0 = (zeroFeatures, engineA) ∧
     zeroFeatures.bands = zeroBands ∧
     zeroFeatures.average = 0 ∧
     zeroFeatures.beat = false ∧
     zeroFeatures.beatIntensity = 0 ∧
     zeroFeatures.frequencyData = fun _ => 0) :=
  ⟨rfl, c9_missing_data engineA 0 rfl⟩

/-! ## Claim C10 -/

/-- Claim C10: the minimal-mode update rule never touches a particle
whose index is at least `64 * floor(N / 64)` (with the default
`N = 2000`, indices 1984–1999): its position, color and size are all
left unchanged by a tick of `updateParticlesMinimal`. -/
theorem c10_minimal_tail_untouched (a : AudioData) (s : VisState) (i : ℕ)
    (hi : 64 * (s.particles.length / 64) ≤ i) :
    (updateParticlesMinimal a s).particles.get? i = s.particles.get? i := by
  unfold updateParticlesMinimal
  simp only [get?_mapIdxP]
  cases hgp : s.particles.get? i with
  | none => rfl
  | some p =>
      show some _ = some p
      congr 1
      unfold updateParticlesMinimalStep
      rw [if_pos (Or.inr hi)]

/-- Witness for C10: a one-particle field (`64 * (1 / 64) = 0 ≤ 0`)
whose particle 0 is untouched by the minimal rule. -/
theorem c10_minimal_tail_untouched_witness :
    64 * (stateA.particles.length / 64) ≤ 0 ∧
    (updateParticlesMinimal audioA stateA).particles.get? 0 =
      stateA.particles.get? 0 :=
  ⟨by decide, c10_minimal_tail_untouched audioA stateA 0 (by decide)⟩

/-! ## Claim C4 -/

theorem extractBand_nonneg_le_one (d : ℕ → ℕ) (sr L s e : ℕ)
    (hd : ∀ i, d i ≤ 255) (hse : hzToBin s L sr < hzToBin e L sr) :
    0 ≤ extractBand d sr L s e ∧ extractBand d sr L s e ≤ 1 := by
  unfold extractBand
  set a := hzToBin s L sr with ha
  set b := hzToBin e L sr with hb
  have hcnt : (0 : ℚ) < (b : ℚ) - (a : ℚ) := by
    have : (a : ℚ) < (b : ℚ) := by exact_mod_cast hse
    linarith
  have hsum0 : (0 : ℚ) ≤ ∑ i in Finset.Ico a b, (d i : ℚ) :=
    Finset.sum_nonneg fun i _ => by positivity
  have hsum : (∑ i in Finset.Ico a b, (d i : ℚ)) ≤ 255 * ((b : ℚ) - (a : ℚ)) := by
    calc (∑ i in Finset.Ico a b, (d i : ℚ))
        ≤ ∑ _i in Finset.Ico a b, (255 : ℚ) :=
          Finset.sum_le_sum fun i _ => by exact_mod_cast hd i
      _ = ((b - a : ℕ) : ℚ) * 255 := by
          rw [Finset.sum_const, Nat.card_Ico]; simp [mul_comm]
      _ = 255 * ((b : ℚ) - (a : ℚ)) := by
          rw [Nat.cast_sub (le_of_lt hse)]; ring
  constructor
  · positivity
  · rw [div_le_one (by norm_num : (0:ℚ) < 255), div_le_iff hcnt]
    linarith

theorem extractBand_allmax (sr L s e : ℕ)
    (hse : hzToBin s L sr < hzToBin e L sr) :
    extractBand (fun _ => 255) sr L s e = 1 := by
  unfold extractBand
  set a := hzToBin s L sr with ha
  set b := hzToBin e L sr with hb
  have hab : (a : ℚ) < (b : ℚ) := by exact_mod_cast hse
  have hcnt : ((b : ℚ) - (a : ℚ)) ≠ 0 := by linarith
  simp only [Finset.sum_const, Nat.card_Ico, nsmul_eq_mul]
  rw [Nat.cast_sub (le_of_lt hse)]
  push_cast
  field_simp

/-- Claim C4: for any byte spectrum and each of the six named bands
(whenever the band's bin range is non-degenerate, as it is at the
standard sample rates), the extracted band energy lies in `[0, 1]`;
and for the all-255 spectrum every band energy is exactly 1. -/
theorem c4_band_normalization (d : ℕ → ℕ) (sr : ℕ)
    (hd : ∀ i, d i ≤ 255)
    (hbins : ∀ p ∈ frequencyBands, hzToBin p.1 1024 sr < hzToBin p.2 1024 sr) :
    (∀ p ∈ frequencyBands,
      0 ≤ extractBand d sr 1024 p.1 p.2 ∧ extractBand d sr 1024 p.1 p.2 ≤ 1) ∧
    extractFrequencyBands (fun _ => 255) sr 1024 = onesBands := by
  constructor
  · exact fun p hp => extractBand_nonneg_le_one d sr 1024 p.1 p.2 hd (hbins p hp)
  · have h1 := hbins (0, 60) (by simp [frequencyBands])
    have h2 := hbins (60, 250) (by simp [frequencyBands])
    have h3 := hbins (250, 500) (by simp [frequencyBands])
    have h4 := hbins (500, 2000) (by simp [frequencyBands])
    have h5 := hbins (2000, 4000) (by simp [frequencyBands])
    have h6 := hbins (4000, 8000) (by simp [frequencyBands])
    unfold extractFrequencyBands onesBands
    rw [extractBand_allmax sr 1024 0 60 h1, extractBand_allmax sr 1024 60 250 h2,
      extractBand_allmax sr 1024 250 500 h3, extractBand_allmax sr 1024 500 2000 h4,
      extractBand_allmax sr 1024 2000 4000 h5, extractBand_allmax sr 1024 4000 8000 h6]

/-- Witness for C4 at the standard 44100 Hz sample rate, where the six
bin ranges are `[0,2) [2,11) [11,23) [23,92) [92,185) [185,371)`, all
non-degenerate, evaluated on the all-255 spectrum. -/
theorem c4_band_normalization_witness :
    (∀ i : ℕ, (fun _ : ℕ => 255) i ≤ 255) ∧
    (∀ p ∈ frequencyBands, hzToBin p.1 1024 44100 < hzToBin p.2 1024 44100) ∧
    ((∀ p ∈ frequencyBands,
       0 ≤ extractBand (fun _ => 255) 44100 1024 p.1 p.2 ∧
       extractBand (fun _ => 255) 44100 1024 p.1 p.2 ≤ 1) ∧
     extractFrequencyBands (fun _ => 255) 44100 1024 = onesBands) :=
  ⟨fun _ => Nat.le_refl 255, by decide,
   c4_band_normalization (fun _ => 255) 44100 (fun _ => Nat.le_refl 255) (by decide)⟩

/-! ## Claim C8 -/

/-- Claim C8 counterexample: in minimal mode the particle-to-bin map is
NOT the proportional map `floor(i/N * binCount)`.  With `N = 2000` and
1024 bins, particle 31 belongs to bar 1 (`particlesPerBar = 31`) and
reads bin `floor(1/64 * 1024) = 16`, not
`floor(31/2000 * 1024) = 15`: two spectra that agree on bin 15 (the
claimed bin) but differ on bin 16 give different results for particle
31 under the minimal update rule. -/
theorem c8_counterexample :
    (fun _ : ℕ => 0) (freqIndexOf 31 2000 1024) =
      (fun j : ℕ => if j = 16 then 255 else 0) (freqIndexOf 31 2000 1024) ∧
    updateParticlesMinimalStep cyberpunk (fun _ : ℕ => 0) 1024 2000 31 defaultParticle ≠
      updateParticlesMinimalStep cyberpunk (fun j : ℕ => if j = 16 then 255 else 0)
        1024 2000 31 defaultParticle := by
  constructor
  · decide
  · intro heq
    have hsz := congrArg Particle.size heq
    have h0 : (updateParticlesMinimalStep cyberpunk (fun _ : ℕ => 0) 1024 2000 31
        defaultParticle).size = JQ.num 3 := by
      norm_num [updateParticlesMinimalStep, JQ.jq]
    have h1 : (updateParticlesMinimalStep cyberpunk (fun j : ℕ => if j = 16 then 255 else 0)
        1024 2000 31 defaultParticle).size = JQ.num 7 := by
      norm_num [updateParticlesMinimalStep, JQ.jq]
    rw [h0, h1] at hsz
    exact absurd (JQ.num.inj hsz) (by norm_num)

/-- Claim C8 (amended): the cosmic, pulse, chaos rules, the generic
fallback `updateParticles` (which is also the position phase of neural
mode) and the frozen color recompute all read particle `i`'s frequency
sample from exactly bin `floor(i/N * binCount)` — their per-particle
result depends on the spectrum only through that bin.  Minimal mode
instead reads bin `floor(floor(i / particlesPerBar)/64 * binCount)`,
with `particlesPerBar = floor(N/64)` (and particles at index
`≥ 64*particlesPerBar` read no bin at all). -/
theorem c8_bin_dependence (env : MathEnv) (palette : Palette)
    (pulseEffect : Bool) (pulseIntensity bassIntensity spiralAngle time : ℚ)
    (d d' : ℕ → ℕ) (L N : ℕ) (average : ℚ) (beat : Bool) (beatIntensity : ℚ)
    (i : ℕ) (p : Particle)
    (hprop : d (freqIndexOf i N L) = d' (freqIndexOf i N L))
    (hbar : d ((i / (N / 64)) * L / 64) = d' ((i / (N / 64)) * L / 64)) :
    updateParticlesStep env palette pulseEffect pulseIntensity bassIntensity d L N
        average beat beatIntensity i p =
      updateParticlesStep env palette pulseEffect pulseIntensity bassIntensity d' L N
        average beat beatIntensity i p ∧
    updateParticleColorsStep palette pulseEffect pulseIntensity d L N average i p =
      updateParticleColorsStep palette pulseEffect pulseIntensity d' L N average i p ∧
    updateParticlesCosmicStep env palette pulseEffect pulseIntensity bassIntensity
        spiralAngle d L N beat beatIntensity i p =
      updateParticlesCosmicStep env palette pulseEffect pulseIntensity bassIntensity
        spiralAngle d' L N beat beatIntensity i p ∧
    updateParticlesPulseStep env palette bassIntensity time d L N beat beatIntensity i p =
      updateParticlesPulseStep env palette bassIntensity time d' L N beat beatIntensity i p ∧
    updateParticlesChaosStep env palette time d L N beat beatIntensity i p =
      updateParticlesChaosStep env palette time d' L N beat beatIntensity i p ∧
    updateParticlesMinimalStep palette d L N i p =
      updateParticlesMinimalStep palette d' L N i p := by
  refine ⟨?_, ?_, ?_, ?_, ?_, ?_⟩
  · simp only [updateParticlesStep, hprop]
  · simp only [updateParticleColorsStep, hprop]
  · simp only [updateParticlesCosmicStep, hprop]
  · simp only [updateParticlesPulseStep, hprop]
  · simp only [updateParticlesChaosStep, hprop]
  · simp only [updateParticlesMinimalStep, hbar]

/-- Witness for C8 with both spectra equal (hypotheses hold trivially)
at particle 0 of a 2000-particle field. -/
theorem c8_bin_dependence_witness :
    ((fun _ : ℕ => 0) (freqIndexOf 0 2000 1024) =
      (fun _ : ℕ => 0) (freqIndexOf 0 2000 1024)) ∧
    (updateParticlesStep mathEnv0 cyberpunk false 0 0 (fun _ : ℕ => 0) 1024 2000
        0 false 0 0 defaultParticle =
      updateParticlesStep mathEnv0 cyberpunk false 0 0 (fun _ : ℕ => 0) 1024 2000
        0 false 0 0 defaultParticle ∧
     updateParticleColorsStep cyberpunk false 0 (fun _ : ℕ => 0) 1024 2000 0 0
        defaultParticle =
      updateParticleColorsStep cyberpunk false 0 (fun _ : ℕ => 0) 1024 2000 0 0
        defaultParticle ∧
     updateParticlesCosmicStep mathEnv0 cyberpunk false 0 0 0 (fun _ : ℕ => 0) 1024 2000
        false 0 0 defaultParticle =
      updateParticlesCosmicStep mathEnv0 cyberpunk false 0 0 0 (fun _ : ℕ => 0) 1024 2000
        false 0 0 defaultParticle ∧
     updateParticlesPulseStep mathEnv0 cyberpunk 0 0 (fun _ : ℕ => 0) 1024 2000
        false 0 0 defaultParticle =
      updateParticlesPulseStep mathEnv0 cyberpunk 0 0 (fun _ : ℕ => 0) 1024 2000
        false 0 0 defaultParticle ∧
     updateParticlesChaosStep mathEnv0 cyberpunk 0 (fun _ : ℕ => 0) 1024 2000
        false 0 0 defaultParticle =
      updateParticlesChaosStep mathEnv0 cyberpunk 0 (fun _ : ℕ => 0) 1024 2000
        false 0 0 defaultParticle ∧
     updateParticlesMinimalStep cyberpunk (fun _ : ℕ => 0) 1024 2000 0 defaultParticle =
      updateParticlesMinimalStep cyberpunk (fun _ : ℕ => 0) 1024 2000 0 defaultParticle) :=
  ⟨rfl, c8_bin_dependence mathEnv0 cyberpunk false 0 0 0 0 (fun _ => 0) (fun _ => 0)
    1024 2000 0 false 0 0 defaultParticle rfl rfl⟩

/-! ## Claim C6 -/

theorem pulseDecayStep_cleared (s : VisState) :
    pulseDecayStep (pulseClearedState s) = pulseClearedState s := by
  unfold pulseDecayStep pulseClearedState
  norm_num

/-- After `n+1` applications of the decay step to the just-set pulse
state with intensity `p0 > 0`, the pulse is still active with intensity
`p0 * 0.85^(n+1)` when that value exceeds 0.1, and is cleared (effect
off, intensity exactly 0) otherwise. -/
theorem pulseDecay_invariant (s : VisState) (p0 : ℚ) (hp : 0 < p0) : ∀ n : ℕ,
    (1/10 < p0 * (17/20)^(n+1) →
      pulseDecayStep^[n+1] (pulseSetState p0 s) = pulseSetState (p0 * (17/20)^(n+1)) s) ∧
    (p0 * (17/20)^(n+1) ≤ 1/10 →
      pulseDecayStep^[n+1] (pulseSetState p0 s) = pulseClearedState s) := by
  intro n
  induction n with
  | zero =>
      rw [pow_one, Function.iterate_one]
      constructor
      · intro h
        unfold pulseDecayStep pulseSetState
        rw [if_pos h]
      · intro h
        unfold pulseDecayStep pulseSetState pulseClearedState
        rw [if_neg (not_lt.mpr h)]
  | succ n ih =>
      have hqpos : 0 < p0 * (17/20)^(n+1) := by positivity
      have hr : p0 * (17/20)^(n+1+1) = (p0 * (17/20)^(n+1)) * (17/20) := by ring
      constructor
      · intro h
        have hq : 1/10 < p0 * (17/20)^(n+1) := by nlinarith
        rw [Function.iterate_succ_apply', ih.1 hq]
        unfold pulseDecayStep pulseSetState
        rw [if_pos (by rw [hr] at h; exact h), hr]
      · intro h
        by_cases hq : 1/10 < p0 * (17/20)^(n+1)
        · rw [Function.iterate_succ_apply', ih.1 hq]
          unfold pulseDecayStep pulseSetState pulseClearedState
          rw [if_neg (not_lt.mpr (by rw [hr] at h; exact h))]
        · rw [Function.iterate_succ_apply', ih.2 (not_lt.mp hq), pulseDecayStep_cleared]

theorem triggerPulse_pulseEffect (bi : ℚ) (s : VisState) (hbi : 0 ≤ bi) :
    (triggerPulse bi s).pulseEffect = true := by
  have hcond : (1:ℚ)/10 < (bi + 3/2) * (17/20) := by nlinarith
  unfold triggerPulse pulseDecayStep
  dsimp only
  split
  · rfl
  · next hneg => exact absurd hcond hneg

/-- Claim C6 counterexample: for `I = 1` the claimed tick bound is
`ceil(log(0.1/1)/log(0.85)) = 15` — certified here by
`0.85^15 < 0.1 < 0.85^14` — yet after 15 decay steps (the synchronous
one inside `triggerPulse` plus 14 frames), and still after 16, the
pulse is NOT cleared: `pulseIntensity` exceeds 0.1 and `pulseEffect` is
still set, because `triggerPulse` starts the decay from `I + 1.5`, not
from `I`. -/
theorem c6_counterexample :
    ((17/20 : ℚ)^15 < 1/10 ∧ (1/10 : ℚ) < (17/20)^14) ∧
    (pulseDecayStep^[14] (triggerPulse 1 stateA)).pulseEffect = true ∧
    (1/10 : ℚ) < (pulseDecayStep^[14] (triggerPulse 1 stateA)).pulseIntensity ∧
    (pulseDecayStep^[15] (triggerPulse 1 stateA)).pulseEffect = true ∧
    (1/10 : ℚ) < (pulseDecayStep^[15] (triggerPulse 1 stateA)).pulseIntensity := by
  have hiter : ∀ n : ℕ, pulseDecayStep^[n] (triggerPulse 1 stateA) =
      pulseDecayStep^[n+1] (pulseSetState ((1:ℚ) + 3/2) stateA) := fun n => by
    rw [Function.iterate_succ_apply]; rfl
  have h14 : pulseDecayStep^[14] (triggerPulse 1 stateA) =
      pulseSetState (((1:ℚ) + 3/2) * (17/20)^15) stateA := by
    rw [hiter 14]
    exact (pulseDecay_invariant stateA ((1:ℚ) + 3/2) (by norm_num) 14).1 (by norm_num)
  have h15 : pulseDecayStep^[15] (triggerPulse 1 stateA) =
      pulseSetState (((1:ℚ) + 3/2) * (17/20)^16) stateA := by
    rw [hiter 15]
    exact (pulseDecay_invariant stateA ((1:ℚ) + 3/2) (by norm_num) 15).1 (by norm_num)
  refine ⟨⟨by norm_num, by norm_num⟩, ?_, ?_, ?_, ?_⟩
  · rw [h14]; rfl
  · rw [h14]; show (1:ℚ)/10 < ((1:ℚ) + 3/2) * (17/20)^15; norm_num
  · rw [h15]; rfl
  · rw [h15]; show (1:ℚ)/10 < ((1:ℚ) + 3/2) * (17/20)^16; norm_num

/-- Claim C6 (amended): `triggerPulse(I)` starts the decay from
`I + 1.5` (not `I`) and applies the first ×0.85 step synchronously;
after `n` further frames the pulse is active with intensity exactly
`(I+1.5) * 0.85^(n+1)` as long as that value exceeds 0.1, and is
cleared — `pulseEffect = false` and `pulseIntensity` exactly 0 — from
the first frame where it drops to 0.1 or below (such a frame exists,
i.e. within the least `k` with `(I+1.5) * 0.85^k ≤ 0.1` total decay
steps); once cleared, a pulse gesture command immediately re-triggers. -/
theorem c6_pulse (I : ℚ) (hI : 0 ≤ I) (s : VisState) :
    (∀ n : ℕ,
      ((pulseDecayStep^[n] (triggerPulse I s)).pulseEffect = false ∧
       (pulseDecayStep^[n] (triggerPulse I s)).pulseIntensity = 0) ↔
      (I + 3/2) * (17/20)^(n+1) ≤ 1/10) ∧
    (∀ n : ℕ, (pulseDecayStep^[n] (triggerPulse I s)).pulseEffect = true →
      (pulseDecayStep^[n] (triggerPulse I s)).pulseIntensity =
        (I + 3/2) * (17/20)^(n+1)) ∧
    (∃ n : ℕ,
      (pulseDecayStep^[n] (triggerPulse I s)).pulseEffect = false ∧
      (pulseDecayStep^[n] (triggerPulse I s)).pulseIntensity = 0) ∧
    (∀ (t : VisState) (c : GestureCommands) (b : Bool) (bi : ℚ),
      t.pulseEffect = false → c.pulse = true → 0 ≤ bi →
      (processGestureCommands c b bi t).pulseEffect = true) := by
  have hp : 0 < I + 3/2 := by linarith
  have hiter : ∀ n : ℕ, pulseDecayStep^[n] (triggerPulse I s) =
      pulseDecayStep^[n+1] (pulseSetState (I + 3/2) s) := fun n => by
    rw [Function.iterate_succ_apply]; rfl
  refine ⟨?_, ?_, ?_, ?_⟩
  · intro n
    rw [hiter n]
    constructor
    · intro hcl
      by_cases hq : 1/10 < (I + 3/2) * (17/20)^(n+1)
      · rw [(pulseDecay_invariant s (I + 3/2) hp n).1 hq] at hcl
        exact absurd hcl.1 (by simp [pulseSetState])
      · exact not_lt.mp hq
    · intro h
      rw [(pulseDecay_invariant s (I + 3/2) hp n).2 h]
      exact ⟨rfl, rfl⟩
  · intro n h
    rw [hiter n] at h ⊢
    by_cases hq : 1/10 < (I + 3/2) * (17/20)^(n+1)
    · rw [(pulseDecay_invariant s (I + 3/2) hp n).1 hq]
      rfl
    · rw [(pulseDecay_invariant s (I + 3/2) hp n).2 (not_lt.mp hq)] at h
      exact absurd h (by simp [pulseClearedState])
  · obtain ⟨k, hk⟩ := exists_pow_lt_of_lt_one
      (show (0:ℚ) < 1/10 / (I + 3/2) by positivity)
      (show (17/20 : ℚ) < 1 by norm_num)
    refine ⟨k, ?_⟩
    have hle : (I + 3/2) * (17/20)^(k+1) ≤ 1/10 := by
      have hpow : ((17/20 : ℚ))^(k+1) ≤ (17/20)^k := by
        have : (0:ℚ) < (17/20)^k := by positivity
        calc ((17/20 : ℚ))^(k+1) = (17/20)^k * (17/20) := by ring
          _ ≤ (17/20)^k * 1 := by nlinarith
          _ = (17/20)^k := by ring
      have h2 : (I + 3/2) * (17/20)^(k+1) ≤ (I + 3/2) * (17/20)^k := by nlinarith
      have h3 : (I + 3/2) * (17/20)^k < (I + 3/2) * (1/10 / (I + 3/2)) := by
        exact (mul_lt_mul_left hp).mpr hk
      have h4 : (I + 3/2) * (1/10 / (I + 3/2)) = 1/10 := by
        field_simp
        ring
      linarith
    rw [hiter k, (pulseDecay_invariant s (I + 3/2) hp k).2 hle]
    exact ⟨rfl, rfl⟩
  · intro t c b bi h1 h2 h3
    have hmain : (triggerPulse bi { t with isFrozen := c.freeze }).pulseEffect = true :=
      triggerPulse_pulseEffect bi _ h3
    unfold processGestureCommands
    simp only [h1, h2, Bool.not_false, Bool.and_self, if_true]
    split
    · exact hmain
    · exact hmain

/-- Witness for C6 at `I = 1` and the concrete state `stateA`. -/
theorem c6_pulse_witness :
    (0 : ℚ) ≤ 1 ∧
    ((∀ n : ℕ,
      ((pulseDecayStep^[n] (triggerPulse 1 stateA)).pulseEffect = false ∧
       (pulseDecayStep^[n] (triggerPulse 1 stateA)).pulseIntensity = 0) ↔
      ((1:ℚ) + 3/2) * (17/20)^(n+1) ≤ 1/10) ∧
    (∀ n : ℕ, (pulseDecayStep^[n] (triggerPulse 1 stateA)).pulseEffect = true →
      (pulseDecayStep^[n] (triggerPulse 1 stateA)).pulseIntensity =
        ((1:ℚ) + 3/2) * (17/20)^(n+1)) ∧
    (∃ n : ℕ,
      (pulseDecayStep^[n] (triggerPulse 1 stateA)).pulseEffect = false ∧
      (pulseDecayStep^[n] (triggerPulse 1 stateA)).pulseIntensity = 0) ∧
    (∀ (t : VisState) (c : GestureCommands) (b : Bool) (bi : ℚ),
      t.pulseEffect = false → c.pulse = true → 0 ≤ bi →
      (processGestureCommands c b bi t).pulseEffect = true)) :=
  ⟨by norm_num, c6_pulse 1 (by norm_num) stateA⟩

/-! ## Claim C3 -/

theorem detectBeat_lastBeat_fired (s : BeatState) (a : ℚ) (now : ℤ)
    (h : (detectBeat s a now).1 = true) :
    (detectBeat s a now).2.lastBeatTime = now := by
  rw [(detectBeat_state s a now).1, if_pos h]

theorem detectBeat_lastBeat_cases (s : BeatState) (a : ℚ) (now : ℤ) :
    (detectBeat s a now).2.lastBeatTime = s.lastBeatTime ∨
    (detectBeat s a now).2.lastBeatTime = now := by
  rw [(detectBeat_state s a now).1]
  by_cases h : (detectBeat s a now).1 <;> simp [h]

theorem detectBeat_fired_elapsed (s : BeatState) (a : ℚ) (now : ℤ)
    (h : (detectBeat s a now).1 = true) :
    beatMinInterval < now - s.lastBeatTime :=
  ((detectBeat_fired_iff s a now).mp h).1

theorem detectBeat_upper_step (s : BeatState) (a : ℚ) (now : ℤ) (ha : 0 < a)
    (hs : s.currentBeat ≤ a * (49/50)) :
    (detectBeat s a now).2.currentBeat ≤ a * (49/50) := by
  rw [(detectBeat_state s a now).2]
  apply max_le
  · by_cases hf : (detectBeat s a now).1 = true
    · rw [if_pos hf]; unfold beatDecayRate; nlinarith
    · rw [if_neg hf]; unfold beatDecayRate; nlinarith
  · nlinarith

theorem beatRun_lower (a : ℚ) (Δ t0 : ℤ) (n : ℕ) :
    a / 2 ≤ (beatRunState a Δ t0 (n+1)).currentBeat := by
  show a / 2 ≤ (detectBeat (beatRunState a Δ t0 n) a (t0 + (n:ℤ) * Δ)).2.currentBeat
  rw [(detectBeat_state _ a _).2]
  have h : a * (1/2) = a / 2 := by ring
  rw [h]
  exact le_max_right _ _

theorem beatRun_upper (a : ℚ) (Δ t0 : ℤ) (ha : 0 < a) :
    ∀ n : ℕ, (beatRunState a Δ t0 n).currentBeat ≤ a * (49/50)
  | 0 => by
      show (0:ℚ) ≤ a * (49/50)
      nlinarith
  | n + 1 =>
      detectBeat_upper_step (beatRunState a Δ t0 n) a (t0 + (n:ℤ) * Δ) ha
        (beatRun_upper a Δ t0 ha n)

theorem beatRun_lastBeat_ge (a : ℚ) (Δ t0 : ℤ) (hΔ : 0 < Δ) (n : ℕ)
    (hf : beatRunFired a Δ t0 n = true) :
    ∀ k : ℕ, n < k → t0 + (n : ℤ) * Δ ≤ (beatRunState a Δ t0 k).lastBeatTime := by
  intro k
  induction k with
  | zero => intro h; exact absurd h (Nat.not_lt_zero n)
  | succ k ih =>
      intro hk
      by_cases hnk : n = k
      · subst hnk
        show t0 + (n:ℤ) * Δ ≤
          (detectBeat (beatRunState a Δ t0 n) a (t0 + (n:ℤ) * Δ)).2.lastBeatTime
        rw [detectBeat_lastBeat_fired (beatRunState a Δ t0 n) a (t0 + (n:ℤ) * Δ) hf]
      · have hk' : n < k := by omega
        have hkth := ih hk'
        show t0 + (n:ℤ) * Δ ≤
          (detectBeat (beatRunState a Δ t0 k) a (t0 + (k:ℤ) * Δ)).2.lastBeatTime
        rcases detectBeat_lastBeat_cases (beatRunState a Δ t0 k) a (t0 + (k:ℤ) * Δ)
          with h | h
        · rw [h]; exact hkth
        · rw [h]
          have hle : (n:ℤ) ≤ (k:ℤ) := by exact_mod_cast le_of_lt hk'
          nlinarith

/-- Claim C3 counterexample: with constant input `a = 1` (tick interval
16 ms from time 0) and `ε = 1/100`, the running level never ends up —
let alone stays — within `ε` of `a`: from the first call onward it is
bounded above by `0.98·a`, so the claimed convergence to within every
`ε > 0` is false. -/
theorem c3_counterexample :
    ¬ ∃ N : ℕ, ∀ n : ℕ, N ≤ n →
      |(beatRunState 1 16 0 n).currentBeat - 1| ≤ 1/100 := by
  rintro ⟨N, h⟩
  have hub := beatRun_upper 1 16 0 (by norm_num) (N+1)
  have h2 := h (N+1) (Nat.le_succ N)
  rw [abs_le] at h2
  have hlo := h2.1
  linarith

/-- Claim C3 (amended): for constant input `a > 0` at a fixed tick
interval, the running level reaches the band `[a/2, 0.98·a]` after the
first call and stays in it forever (it does NOT converge to within
arbitrary `ε` of `a`); and any two calls of the run that both report a
beat are separated by strictly more than `beatMinInterval` (200 ms). -/
theorem c3_beat_band_and_interval (a : ℚ) (Δ t0 : ℤ) (ha : 0 < a) (hΔ : 0 < Δ) :
    (∀ n : ℕ, a / 2 ≤ (beatRunState a Δ t0 (n+1)).currentBeat ∧
      (beatRunState a Δ t0 (n+1)).currentBeat ≤ a * (49/50)) ∧
    (∀ n m : ℕ, n < m → beatRunFired a Δ t0 n = true → beatRunFired a Δ t0 m = true →
      beatMinInterval < (t0 + (m : ℤ) * Δ) - (t0 + (n : ℤ) * Δ)) := by
  constructor
  · exact fun n => ⟨beatRun_lower a Δ t0 n, beatRun_upper a Δ t0 ha (n+1)⟩
  · intro n m hnm hfn hfm
    have h1 := detectBeat_fired_elapsed (beatRunState a Δ t0 m) a (t0 + (m:ℤ) * Δ) hfm
    have h2 := beatRun_lastBeat_ge a Δ t0 hΔ n hfn m hnm
    linarith

/-- Witness for C3 (amended) with `a = 1`, `Δ = 16 ms`, `t0 = 0`. -/
theorem c3_beat_band_and_interval_witness :
    (0:ℚ) < 1 ∧ (0:ℤ) < 16 ∧
    ((∀ n : ℕ, (1:ℚ) / 2 ≤ (beatRunState 1 16 0 (n+1)).currentBeat ∧
       (beatRunState 1 16 0 (n+1)).currentBeat ≤ 1 * (49/50)) ∧
     (∀ n m : ℕ, n < m → beatRunFired 1 16 0 n = true → beatRunFired 1 16 0 m = true →
       beatMinInterval < ((0:ℤ) + (m : ℤ) * 16) - ((0:ℤ) + (n : ℤ) * 16))) :=
  ⟨by norm_num, by norm_num,
   c3_beat_band_and_interval 1 16 0 (by norm_num) (by norm_num)⟩

/-! ## Structural lemmas about the tick -/

theorem pulseDecayStep_particles (s : VisState) :
    (pulseDecayStep s).particles = s.particles := by
  unfold pulseDecayStep; dsimp only; split <;> rfl

theorem triggerPulse_particles (i : ℚ) (s : VisState) :
    (triggerPulse i s).particles = s.particles := by
  unfold triggerPulse; rw [pulseDecayStep_particles]

theorem processGestureCommands_particles (c : GestureCommands) (b : Bool) (bi : ℚ)
    (s : VisState) : (processGestureCommands c b bi s).particles = s.particles := by
  unfold processGestureCommands; dsimp only
  split <;> split <;> first | rw [triggerPulse_particles] | rfl

theorem pulseDecayStep_isFrozen (s : VisState) :
    (pulseDecayStep s).isFrozen = s.isFrozen := by
  unfold pulseDecayStep; dsimp only; split <;> rfl

theorem triggerPulse_isFrozen (i : ℚ) (s : VisState) :
    (triggerPulse i s).isFrozen = s.isFrozen := by
  unfold triggerPulse; rw [pulseDecayStep_isFrozen]

theorem processGestureCommands_isFrozen (c : GestureCommands) (b : Bool) (bi : ℚ)
    (s : VisState) : (processGestureCommands c b bi s).isFrozen = c.freeze := by
  unfold processGestureCommands; dsimp only
  split <;> split <;> first | rw [triggerPulse_isFrozen] | rfl

theorem preDispatch_particles (a : AudioData) (g : Option GestureCommands)
    (s : VisState) : (preDispatch a g s).particles = s.particles := by
  unfold preDispatch; dsimp only
  cases g with
  | none => rfl
  | some c => rw [processGestureCommands_particles]

theorem preDispatch_isFrozen_some (a : AudioData) (c : GestureCommands)
    (s : VisState) : (preDispatch a (some c) s).isFrozen = c.freeze := by
  unfold preDispatch; dsimp only
  rw [processGestureCommands_isFrozen]

theorem length_updateParticlesGeneric (env : MathEnv) (a : AudioData) (s : VisState) :
    (updateParticlesGeneric env a s).particles.length = s.particles.length :=
  length_mapIdxP _ _

theorem length_updateParticleColors (a : AudioData) (s : VisState) :
    (updateParticleColors a s).particles.length = s.particles.length :=
  length_mapIdxP _ _

theorem length_updateParticlesCosmic (env : MathEnv) (a : AudioData) (s : VisState) :
    (updateParticlesCosmic env a s).particles.length = s.particles.length :=
  length_mapIdxP _ _

theorem length_updateParticlesPulse (env : MathEnv) (a : AudioData) (s : VisState) :
    (updateParticlesPulse env a s).particles.length = s.particles.length :=
  length_mapIdxP _ _

theorem length_updateParticlesChaos (env : MathEnv) (a : AudioData) (s : VisState) :
    (updateParticlesChaos env a s).particles.length = s.particles.length :=
  length_mapIdxP _ _

theorem length_updateParticlesMinimal (a : AudioData) (s : VisState) :
    (updateParticlesMinimal a s).particles.length = s.particles.length :=
  length_mapIdxP _ _

theorem length_updateParticlesNeural (env : MathEnv) (a : AudioData) (s : VisState) :
    (updateParticlesNeural env a s).particles.length = s.particles.length := by
  unfold updateParticlesNeural; dsimp only
  exact length_updateParticlesGeneric env a s

theorem length_runActiveMode (env : MathEnv) (a : AudioData) (s : VisState) :
    (runActiveMode env a s).particles.length = s.particles.length := by
  unfold runActiveMode
  split
  · cases h : s.visualMode
    case cosmic => exact length_updateParticlesCosmic env a s
    case neural => exact length_updateParticlesNeural env a s
    case pulse => exact length_updateParticlesPulse env a s
    case chaos => exact length_updateParticlesChaos env a s
    case minimal => exact length_updateParticlesMinimal a s
    case generic => exact length_updateParticlesGeneric env a s
  · exact length_updateParticleColors a s

theorem length_update (env : MathEnv) (a : AudioData) (g : Option GestureCommands)
    (s : VisState) : (update env a g s).particles.length = s.particles.length := by
  unfold update
  split
  · rfl
  · rw [length_runActiveMode, preDispatch_particles]

theorem length_applyOp (env : MathEnv) (s : VisState) (op : VisOp) :
    (applyOp env s op).particles.length = s.particles.length := by
  cases op with
  | setMode m => rfl
  | gesture c b bi =>
      show (processGestureCommands c b bi s).particles.length = s.particles.length
      rw [processGestureCommands_particles]
  | pulseTrigger i =>
      show (triggerPulse i s).particles.length = s.particles.length
      rw [triggerPulse_particles]
  | pulseDecayFrame =>
      show (pulseDecayStep s).particles.length = s.particles.length
      rw [pulseDecayStep_particles]
  | tick a g => exact length_update env a g s

/-! ## Claim C7 -/

/-- Claim C7: under any sequence of mode switches, gesture snapshots
(freeze toggles / pulse commands / palette changes), direct pulse
triggers, pulse decay frames, and render ticks, the number of particles
never changes from its construction-time value; and a mode switch
leaves the particle array itself untouched (only the dispatched update
rule changes). -/
theorem c7_particle_count (env : MathEnv) (ops : List VisOp) (s : VisState) :
    (applyOps env ops s).particles.length = s.particles.length ∧
    ∀ m : Mode, (setVisualMode m s).particles = s.particles := by
  constructor
  · induction ops generalizing s with
    | nil => rfl
    | cons op rest ih =>
        show (applyOps env rest (applyOp env s op)).particles.length = s.particles.length
        rw [ih (applyOp env s op), length_applyOp]
  · intro m; rfl

/-! ## Claim C5 -/

theorem runActiveMode_frozen (env : MathEnv) (a : AudioData) (t : VisState)
    (h : t.isFrozen = true) : runActiveMode env a t = updateParticleColors a t := by
  unfold runActiveMode
  rw [if_neg (by simp [h])]

/-- Claim C5: while the freeze command is active (a gesture snapshot
with `freeze = true`), a running tick leaves every particle's position
and velocity unchanged, and recomputes exactly the colors and sizes
from the current features and the active palette (the
`updateParticleColors` loop body); no mode update rule runs.
Positions are therefore identical from tick to tick under identical
features. -/
theorem c5_freeze (env : MathEnv) (a : AudioData) (c : GestureCommands) (s : VisState)
    (hrun : s.isRunning = true) (hfz : c.freeze = true) :
    ((update env a (some c) s).particles.map particlePos =
      s.particles.map particlePos) ∧
    ((update env a (some c) s).particles.map particleVel =
      s.particles.map particleVel) ∧
    ((update env a (some c) s).particles =
      mapIdxP (updateParticleColorsStep
        (paletteOf (update env a (some c) s).currentPalette)
        (update env a (some c) s).pulseEffect
        (update env a (some c) s).pulseIntensity
        a.frequencyData a.binCount s.particles.length a.average) s.particles) := by
  have hu : update env a (some c) s =
      updateParticleColors a (preDispatch a (some c) s) := by
    unfold update
    rw [if_neg (by simp [hrun])]
    exact runActiveMode_frozen env a _ (by rw [preDispatch_isFrozen_some]; exact hfz)
  have hp : (preDispatch a (some c) s).particles = s.particles :=
    preDispatch_particles a (some c) s
  rw [hu]
  unfold updateParticleColors
  dsimp only
  rw [hp]
  refine ⟨?_, ?_, rfl⟩
  · apply map_mapIdxP
    intro i x
    rfl
  · apply map_mapIdxP
    intro i x
    rfl

/-- Witness for C5: a concrete frozen tick on the one-particle state
`stateA` with the silent frame `audioA` and a freeze gesture. -/
theorem c5_freeze_witness :
    stateA.isRunning = true ∧
    (⟨true, false, 0⟩ : GestureCommands).freeze = true ∧
    (((update mathEnv0 audioA (some ⟨true, false, 0⟩) stateA).particles.map particlePos =
       stateA.particles.map particlePos) ∧
     ((update mathEnv0 audioA (some ⟨true, false, 0⟩) stateA).particles.map particleVel =
       stateA.particles.map particleVel) ∧
     ((update mathEnv0 audioA (some ⟨true, false, 0⟩) stateA).particles =
       mapIdxP (updateParticleColorsStep
         (paletteOf (update mathEnv0 audioA (some ⟨true, false, 0⟩) stateA).currentPalette)
         (update mathEnv0 audioA (some ⟨true, false, 0⟩) stateA).pulseEffect
         (update mathEnv0 audioA (some ⟨true, false, 0⟩) stateA).pulseIntensity
         audioA.frequencyData audioA.binCount stateA.particles.length audioA.average)
         stateA.particles)) :=
  ⟨rfl, rfl, c5_freeze mathEnv0 audioA ⟨true, false, 0⟩ stateA rfl rfl⟩

end SonicCanvas
